import Mathlib

/-!
Shallow embedding of the GroqJet travel-planner application (`src/main.py`).

The program is a single-session Streamlit chat loop.  We embed:

* the data model: `Message`, `TripContext`, `SessionState` (the three
  `st.session_state` fields initialised at lines 19-26 of `main.py`);
* `search_web` (lines 65-85): the external DuckDuckGo call is modelled by a
  `SearchOutcome` oracle (the provider either returns a result list or
  raises); the function's own logic — formatting, the empty check, and the
  `except` clause that converts any exception to `None` — is translated
  faithfully;
* `get_groq_response` (lines 88-121): the request-building logic (system
  prompt prepended, per-message copy, web-context injection into the last
  message) is translated faithfully; the network call itself is an oracle
  parameter `apiResult : Option String` (`none` = provider error, caught by
  the `except` clause and returned as `None`).  The function's result is
  paired with a ghost second component recording the request payload that
  was sent (`none` when no request was issued), used only in specifications;
* the intake submit handler (lines 143-180) as `intakeSubmit`;
* the chat turn handler (lines 194-227) as `chatTurn`;
* the reset button handler (lines 58-62) as `resetPlanner`.

Dates are modelled as `Int` day ordinals; `datetime.date` subtraction
followed by `.days` is exact integer day difference, so the guard
`(end_date - start_date).days > 60` becomes `end_date - start_date > 60`.
Python renders a date into the synthesized prompt via `str(...)`; we render
the ordinal via `toString` — no claim inspects the rendered date text.
Python string truthiness (`if not api_key`, `if web_context`) is modelled by
`truthyStr`, which is false exactly on `none` and `some ""`.
-/

/-- Role of a chat message (the `"role"` field of the message dicts). -/
inductive Role where
  | system
  | user
  | assistant
  deriving DecidableEq, Repr

/-- A chat message: `{"role": ..., "content": ...}`. -/
structure Message where
  role : Role
  content : String
  deriving DecidableEq, Repr

/-- Trip metadata saved by the intake handler (`st.session_state.trip_context`,
`main.py` lines 152-157).  Python stores `str(start_date)`/`str(end_date)`;
we keep the day ordinals. -/
structure TripContext where
  source : String
  destination : String
  start_date : Int
  end_date : Int
  deriving DecidableEq, Repr

/-- The Streamlit session state (`main.py` lines 19-26): message history,
whether the trip has started, and the optional trip context (`none` models
the empty dict `{}`). -/
structure SessionState where
  messages : List Message
  trip_started : Bool
  trip_context : Option TripContext
  deriving DecidableEq, Repr

/-- The initial session state (`main.py` lines 19-26): empty history, trip
not started, empty trip context. -/
def initState : SessionState :=
  { messages := [], trip_started := false, trip_context := none }

/-- The reset button handler (`main.py` lines 58-62): clears all three
session fields unconditionally. -/
def resetPlanner (_st : SessionState) : SessionState :=
  { messages := [], trip_started := false, trip_context := none }

/-- The fixed system instruction (`SYSTEM_PROMPT`, `main.py` lines 29-39). -/
def SYSTEM_PROMPT : String :=
  "\nYou are GroqJet, an expert AI travel consultant.\n\nYOUR MANDATE:\n1.  **Travel Only:** You must ONLY answer questions related to travel, tourism, geography, logistics, packing, culture, and itinerary planning.\n2.  **Refusal:** If the user asks about ANY other topic (e.g., coding, math, politics, general life advice, creative writing not related to travel), you must politely but firmly refuse. Example: \"I specialize only in travel planning. I cannot assist with non-travel queries.\"\n3.  **Clarification:** If the user provides ambiguous locations (e.g., \"Paris\" could be France or Texas) or unrealistic constraints, you must ask clarifying questions BEFORE generating an itinerary.\n4.  **Tone:** Professional, enthusiastic, and helpful.\n5.  **Format:** Use Markdown for itineraries. Use bolding for days (e.g., **Day 1**) and lists for activities.\n6.  **Real-Time Data:** If provided with [Real-Time Web Context], use that information to answer specific questions about events, weather, or news.\n"

/-- The system message prepended to every outbound request
(`full_history = [{"role": "system", "content": SYSTEM_PROMPT}]`,
`main.py` line 98). -/
def systemMessage : Message :=
  { role := Role.system, content := SYSTEM_PROMPT }

/-- Python string truthiness for an optional string: `None` and `""` are
falsy, every other string is truthy. -/
def truthyStr : Option String → Bool
  | none => false
  | some s => s ≠ ""

/-- One web search result as consumed by `search_web` (`res['title']`,
`res['body']`, `res['href']`). -/
structure SearchResult where
  title : String
  body : String
  href : String
  deriving DecidableEq, Repr

/-- Oracle for the external DuckDuckGo call inside `search_web`: the
provider either returns a list of results or raises an exception. -/
inductive SearchOutcome where
  | ok (results : List SearchResult)
  | err (msg : String)
  deriving DecidableEq, Repr

/-- One formatted block of `search_web`'s loop (`main.py` line 79), with the
1-based index `i`. -/
def formatResult (i : Nat) (r : SearchResult) : String :=
  "Source " ++ toString i ++ ":\n- Title: " ++ r.title ++ "\n- Snippet: " ++
    r.body ++ "\n- Link: " ++ r.href ++ "\n\n"

/-- The accumulation loop of `search_web` (`main.py` lines 77-79). -/
def formatResults (rs : List SearchResult) : String :=
  (rs.enum.map (fun p => formatResult (p.1 + 1) p.2)).foldl (· ++ ·) ""

/-- `search_web` (`main.py` lines 65-85).  On a provider exception the
`except` clause swallows the error and returns `None`; on an empty result
list it returns `None`; otherwise it returns the formatted context string.
The query and `max_results` are consumed by the external provider, which
the `SearchOutcome` oracle models. -/
def search_web (outcome : SearchOutcome) : Option String :=
  match outcome with
  | SearchOutcome.err _ => none
  | SearchOutcome.ok results =>
      if results.isEmpty then none
      else some (formatResults results)

/-- The injected-context block appended to the last message
(`main.py` line 108). -/
def contextNote (web_context : String) : String :=
  "\n\n[Real-Time Web Context - Use this to answer the user]:\n" ++ web_context

/-- Append `note` to the content of the last message of the list
(the mutation `last_msg['content'] += ...` on the copied payload,
`main.py` lines 107-108). -/
def injectLast (msgs : List Message) (note : String) : List Message :=
  match msgs with
  | [] => []
  | [m] => [{ m with content := m.content ++ note }]
  | m :: rest => m :: injectLast rest note

/-- The payload-building step of `get_groq_response` (`main.py` lines
102-108): copy every message, and if the web context is truthy and the
copied history is non-empty, append the context block to the last
message's content.  This is the spec's `buildOutboundHistory`. -/
def buildPayload (messages : List Message) (web_context : Option String) :
    List Message :=
  match web_context with
  | none => messages
  | some ctx =>
      if ctx ≠ "" ∧ messages ≠ [] then injectLast messages (contextNote ctx)
      else messages

/-- The full outbound request of `get_groq_response` (`main.py` lines
98-110): the system message followed by the (possibly augmented) payload. -/
def buildRequest (messages : List Message) (web_context : Option String) :
    List Message :=
  systemMessage :: buildPayload messages web_context

/-- `get_groq_response` (`main.py` lines 88-121).  A falsy key returns
`None` without issuing a request; otherwise the request is built and sent,
and the provider call's outcome is the oracle `apiResult` (`none` models an
exception, caught and returned as `None`).  The second component is a ghost
record of the request sent, for specification only. -/
def get_groq_response (messages : List Message) (api_key : Option String)
    (web_context : Option String) (apiResult : Option String) :
    Option String × Option (List Message) :=
  if truthyStr api_key then
    (apiResult, some (buildRequest messages web_context))
  else
    (none, none)

/-- Outcome of the intake submit handler (`main.py` lines 143-150): which
branch of the guard chain fired.  `missingFields` and `durationTooLong` are
the spec's ValidationError cases; `missingKey` is its CredentialMissing
case. -/
inductive IntakeOutcome where
  | missingFields
  | missingKey
  | durationTooLong
  | started
  deriving DecidableEq, Repr

/-- Whether an intake outcome is one of the spec's ValidationError cases
(missing fields or invalid duration), as opposed to CredentialMissing or
success. -/
def isValidationError : IntakeOutcome → Bool
  | IntakeOutcome.missingFields => true
  | IntakeOutcome.durationTooLong => true
  | _ => false

/-- The synthesized initial user prompt (`main.py` lines 160-164). -/
def initialPrompt (source destination : String) (start_date end_date : Int) :
    String :=
  "Please create a travel itinerary from " ++ source ++ " to " ++ destination ++
    " for the dates " ++ toString start_date ++ " to " ++ toString end_date ++
    ". Include suggestions for accommodation, food, and key attractions."

/-- The intake submit handler (`main.py` lines 143-180): guard chain
(empty fields, missing key, duration over 60 days), then save the trip
context, append the synthesized user message, mark the trip started, call
`get_groq_response`, and append the assistant reply when one arrives. -/
def intakeSubmit (st : SessionState) (source destination : String)
    (start_date end_date : Int) (api_key : Option String)
    (apiResult : Option String) : IntakeOutcome × SessionState :=
  if source = "" ∨ destination = "" then
    (IntakeOutcome.missingFields, st)
  else if ¬ truthyStr api_key then
    (IntakeOutcome.missingKey, st)
  else if end_date - start_date > 60 then
    (IntakeOutcome.durationTooLong, st)
  else
    let st1 : SessionState :=
      { st with
        trip_context := some { source := source, destination := destination,
                               start_date := start_date, end_date := end_date },
        messages := st.messages ++
          [{ role := Role.user,
             content := initialPrompt source destination start_date end_date }],
        trip_started := true }
    match (get_groq_response st1.messages api_key none apiResult).1 with
    | some r =>
        (IntakeOutcome.started,
         { st1 with messages := st1.messages ++
             [{ role := Role.assistant, content := r }] })
    | none => (IntakeOutcome.started, st1)

/-- Ghost record of the external effects of one chat turn: the search query
issued (if the search ran) and the completion request sent (if one was). -/
structure TurnEffects where
  searched : Option String
  request : Option (List Message)
  deriving DecidableEq, Repr

/-- The chat turn handler (`main.py` lines 194-227): append the user message
first; then, only when the key is truthy, build the search query from the
prompt and the stored destination, run the web search, call
`get_groq_response` with the web context, and append the assistant reply
when one arrives. -/
def chatTurn (st : SessionState) (prompt : String) (api_key : Option String)
    (searchOutcome : SearchOutcome) (apiResult : Option String) :
    SessionState × TurnEffects :=
  let st1 : SessionState :=
    { st with messages := st.messages ++
        [{ role := Role.user, content := prompt }] }
  if truthyStr api_key then
    let destination_context :=
      match st.trip_context with
      | some ctx => ctx.destination
      | none => ""
    let search_query := prompt ++ " " ++ destination_context
    let web_data := search_web searchOutcome
    let result := get_groq_response st1.messages api_key web_data apiResult
    match result.1 with
    | some r =>
        ({ st1 with messages := st1.messages ++
             [{ role := Role.assistant, content := r }] },
         { searched := some search_query, request := result.2 })
    | none =>
        (st1, { searched := some search_query, request := result.2 })
  else
    (st1, { searched := none, request := none })

/-- Predicate on a message list: no stored message carries the system role.
The spec's invariant that the system instruction is never part of persisted
Conversation State. -/
def NoSystem (msgs : List Message) : Prop :=
  ∀ m ∈ msgs, m.role ≠ Role.system

instance (msgs : List Message) : Decidable (NoSystem msgs) :=
  List.decidableBAll _ msgs

/-- Characterisation of `injectLast`: on a list whose last element is `m`,
it keeps the `dropLast` part and replaces the last element by `m` with
`note` appended to its content. -/
theorem injectLast_spec (msgs : List Message) (note : String) (m : Message)
    (h : msgs.getLast? = some m) :
    injectLast msgs note =
      msgs.dropLast ++ [{ role := m.role, content := m.content ++ note }] := by
  induction msgs with
  | nil => simp at h
  | cons x xs ih =>
    cases xs with
    | nil =>
      simp at h
      subst h
      simp [injectLast]
    | cons y ys =>
      rw [List.getLast?_cons_cons] at h
      simp only [injectLast, ih h]
      rfl

/-- Appending preserves the no-system-role predicate. -/
theorem NoSystem_append (xs ys : List Message) (hx : NoSystem xs)
    (hy : NoSystem ys) : NoSystem (xs ++ ys) := by
  intro m hm
  rcases List.mem_append.mp hm with h | h
  · exact hx m h
  · exact hy m h

/-- A singleton user message satisfies the no-system-role predicate. -/
theorem NoSystem_user (c : String) :
    NoSystem [{ role := Role.user, content := c }] := by
  intro m hm
  rw [List.mem_singleton] at hm
  subst hm
  simp

/-- A singleton assistant message satisfies the no-system-role predicate. -/
theorem NoSystem_assistant (c : String) :
    NoSystem [{ role := Role.assistant, content := c }] := by
  intro m hm
  rw [List.mem_singleton] at hm
  subst hm
  simp

/-- C1: for every non-empty message sequence and non-empty web context,
building the outbound payload leaves every message but the last byte-for-byte
identical to the input (the `dropLast` parts agree), replaces the last
message by the same message with the context block appended to its content
(so the original content is a prefix of the augmented content), and the
persisted session state produced by a chat turn is independent of the search
outcome: no injected search context ever reaches the persisted message
sequence. -/
theorem augmentation_frame (messages : List Message) (ctx : String)
    (hm : messages ≠ []) (hc : ctx ≠ "") :
    (buildPayload messages (some ctx)).dropLast = messages.dropLast
    ∧ (∃ lastMsg, messages.getLast? = some lastMsg ∧
        (buildPayload messages (some ctx)).getLast? =
          some { role := lastMsg.role,
                 content := lastMsg.content ++ contextNote ctx })
    ∧ ∀ (st : SessionState) (prompt : String) (key : Option String)
        (so so' : SearchOutcome) (apiResult : Option String),
        (chatTurn st prompt key so apiResult).1 =
          (chatTurn st prompt key so' apiResult).1 := by
  have hpay : buildPayload messages (some ctx) =
      injectLast messages (contextNote ctx) := by
    simp [buildPayload, hc, hm]
  obtain ⟨m, hlast⟩ : ∃ m, messages.getLast? = some m := by
    cases h : messages.getLast? with
    | none => exact absurd (by simpa using h) hm
    | some m => exact ⟨m, rfl⟩
  refine ⟨?_, ⟨m, hlast, ?_⟩, ?_⟩
  · rw [hpay, injectLast_spec messages (contextNote ctx) m hlast,
      List.dropLast_concat]
  · rw [hpay, injectLast_spec messages (contextNote ctx) m hlast,
      List.getLast?_concat]
  · intro st prompt key so so' apiResult
    cases hk : truthyStr key with
    | false => simp [chatTurn, hk]
    | true =>
      cases apiResult with
      | none => simp [chatTurn, hk, get_groq_response]
      | some r => simp [chatTurn, hk, get_groq_response]

/-- Witness for C1 at a concrete one-message history and context. -/
theorem augmentation_frame_witness :
    ([{ role := Role.user, content := "hi" }] : List Message) ≠ [] ∧ "c" ≠ ""
    ∧ ((buildPayload [{ role := Role.user, content := "hi" }]
          (some "c")).dropLast =
        ([{ role := Role.user, content := "hi" }] : List Message).dropLast
      ∧ (∃ lastMsg,
          ([{ role := Role.user, content := "hi" }] :
              List Message).getLast? = some lastMsg ∧
          (buildPayload [{ role := Role.user, content := "hi" }]
              (some "c")).getLast? =
            some { role := lastMsg.role,
                   content := lastMsg.content ++ contextNote "c" })
      ∧ ∀ (st : SessionState) (prompt : String) (key : Option String)
          (so so' : SearchOutcome) (apiResult : Option String),
          (chatTurn st prompt key so apiResult).1 =
            (chatTurn st prompt key so' apiResult).1) :=
  ⟨by decide, by decide,
   augmentation_frame [{ role := Role.user, content := "hi" }] "c"
     (by decide) (by decide)⟩

/-- C2: evaluation of the intake handler at a reversed date range
(`end_date = 40 < 100 = start_date`, fields non-empty, key present).  The
code accepts the submission — the outcome is `started`, the trip is marked
started, the synthesized user message and the assistant reply are appended,
and the reversed dates are saved in the trip context — because the only
date guard is `(end_date - start_date).days > 60`, which a negative
duration never satisfies.  The claim (and spec §4.1) require a
ValidationError here with no state change. -/
theorem reversed_dates_accepted :
    (40 : Int) < 100
    ∧ (intakeSubmit initState "Paris" "Rome" 100 40 (some "k") (some "ok")).1 =
        IntakeOutcome.started
    ∧ (intakeSubmit initState "Paris" "Rome" 100 40 (some "k")
        (some "ok")).2.trip_started = true
    ∧ (intakeSubmit initState "Paris" "Rome" 100 40 (some "k")
        (some "ok")).2.messages.length = 2
    ∧ (intakeSubmit initState "Paris" "Rome" 100 40 (some "k")
        (some "ok")).2.trip_context =
        some { source := "Paris", destination := "Rome",
               start_date := 100, end_date := 40 } := by
  decide

/-- Counterexample to C3 as stated: the intake input has non-empty source
and destination and a 9-day duration, yet with the completion credential
missing the submission does not succeed and no user message is appended —
the `api_key` guard fires before the trip is started. -/
theorem valid_intake_blocked_without_key_cex :
    "New York" ≠ "" ∧ "Tokyo" ≠ "" ∧ (9 : Int) - 0 ≤ 60
    ∧ (intakeSubmit initState "New York" "Tokyo" 0 9 none (some "ok")).1 ≠
        IntakeOutcome.started
    ∧ (intakeSubmit initState "New York" "Tokyo" 0 9 none
        (some "ok")).2.messages = [] := by
  decide

/-- C3 (amended): for every intake input with non-empty source and
destination, duration at most 60 days, and the completion credential
present, the submission succeeds and appends exactly one synthesized user
message — followed only by the assistant reply when one arrives — whose
text contains both the source and the destination as literal substrings. -/
theorem valid_intake_with_key_appends_one_user_message
    (st : SessionState) (src dst : String) (sd ed : Int)
    (key : Option String) (apiResult : Option String)
    (hs : src ≠ "") (hd : dst ≠ "") (hk : truthyStr key = true)
    (hdur : ed - sd ≤ 60) :
    (intakeSubmit st src dst sd ed key apiResult).1 = IntakeOutcome.started
    ∧ ∃ c,
        (intakeSubmit st src dst sd ed key apiResult).2.messages =
          st.messages ++ [{ role := Role.user, content := c }] ++
            (match apiResult with
             | some r => [{ role := Role.assistant, content := r }]
             | none => [])
        ∧ (∃ a b, c = a ++ src ++ b)
        ∧ (∃ a b, c = a ++ dst ++ b) := by
  have h1 : ¬ (src = "" ∨ dst = "") := by simp [hs, hd]
  have h3 : ¬ (ed - sd > 60) := not_lt.mpr hdur
  refine ⟨?_, initialPrompt src dst sd ed, ?_, ?_, ?_⟩
  · cases apiResult with
    | none => simp [intakeSubmit, h1, hk, h3, get_groq_response]
    | some r => simp [intakeSubmit, h1, hk, h3, get_groq_response]
  · cases apiResult with
    | none => simp [intakeSubmit, h1, hk, h3, get_groq_response]
    | some r => simp [intakeSubmit, h1, hk, h3, get_groq_response]
  · exact ⟨"Please create a travel itinerary from ",
      " to " ++ dst ++ " for the dates " ++ toString sd ++ " to " ++
        toString ed ++
        ". Include suggestions for accommodation, food, and key attractions.",
      by simp [initialPrompt, String.append_assoc]⟩
  · exact ⟨"Please create a travel itinerary from " ++ src ++ " to ",
      " for the dates " ++ toString sd ++ " to " ++ toString ed ++
        ". Include suggestions for accommodation, food, and key attractions.",
      by simp [initialPrompt, String.append_assoc]⟩

/-- Witness for C3 (amended) at the spec's own example scenario: New York
to Tokyo, 9-day duration, credential present. -/
theorem valid_intake_with_key_appends_one_user_message_witness :
    "New York" ≠ "" ∧ "Tokyo" ≠ "" ∧ truthyStr (some "k") = true
    ∧ (9 : Int) - 0 ≤ 60
    ∧ ((intakeSubmit initState "New York" "Tokyo" 0 9 (some "k")
          (some "Day 1")).1 = IntakeOutcome.started
      ∧ ∃ c,
          (intakeSubmit initState "New York" "Tokyo" 0 9 (some "k")
              (some "Day 1")).2.messages =
            initState.messages ++ [{ role := Role.user, content := c }] ++
              (match some "Day 1" with
               | some r => [{ role := Role.assistant, content := r }]
               | none => [])
          ∧ (∃ a b, c = a ++ "New York" ++ b)
          ∧ (∃ a b, c = a ++ "Tokyo" ++ b)) :=
  ⟨by decide, by decide, by decide, by decide,
   valid_intake_with_key_appends_one_user_message initState "New York" "Tokyo"
     0 9 (some "k") (some "Day 1") (by decide) (by decide) (by decide)
     (by decide)⟩

/-- Counterexample to C4 as stated: with the credential missing, a fully
valid intake submission does not proceed as normal — the state is returned
unchanged with the `missingKey` outcome — and in a chat turn neither the
web search nor any request is issued (the ghost effects record is empty). -/
theorem intake_submission_blocked_when_key_missing_cex :
    truthyStr none = false
    ∧ (intakeSubmit initState "Lima" "Cusco" 0 5 none (some "ok")).2 = initState
    ∧ (intakeSubmit initState "Lima" "Cusco" 0 5 none (some "ok")).1 =
        IntakeOutcome.missingKey
    ∧ (chatTurn initState "weather" none (SearchOutcome.ok [])
        (some "ok")).2.searched = none
    ∧ (chatTurn initState "weather" none (SearchOutcome.ok [])
        (some "ok")).2.request = none := by
  decide

/-- C4 (amended): when the completion-provider credential is missing, the
completion call path is blocked and so are intake submission (the session
state is returned unchanged and the trip is not started) and the chat
turn's retrieval-and-respond phase (no search query and no request are
issued); only the user's chat message is still persisted. -/
theorem missing_key_blocks_intake_and_search
    (st : SessionState) (src dst : String) (sd ed : Int)
    (key : Option String) (apiResult : Option String)
    (prompt : String) (so : SearchOutcome)
    (hk : truthyStr key = false) :
    (intakeSubmit st src dst sd ed key apiResult).2 = st
    ∧ (intakeSubmit st src dst sd ed key apiResult).1 ≠ IntakeOutcome.started
    ∧ chatTurn st prompt key so apiResult =
        ({ st with messages := st.messages ++
            [{ role := Role.user, content := prompt }] },
         { searched := none, request := none }) := by
  by_cases h1 : src = "" ∨ dst = ""
  · refine ⟨by simp [intakeSubmit, h1], by simp [intakeSubmit, h1], ?_⟩
    simp [chatTurn, hk]
  · refine ⟨by simp [intakeSubmit, h1, hk], by simp [intakeSubmit, h1, hk], ?_⟩
    simp [chatTurn, hk]

/-- Witness for C4 (amended) at a concrete valid intake input and chat
prompt with the credential absent. -/
theorem missing_key_blocks_intake_and_search_witness :
    truthyStr none = false
    ∧ ((intakeSubmit initState "Kyoto" "Nara" 0 4 none (some "ok")).2 =
        initState
      ∧ (intakeSubmit initState "Kyoto" "Nara" 0 4 none (some "ok")).1 ≠
          IntakeOutcome.started
      ∧ chatTurn initState "museums" none (SearchOutcome.ok []) (some "ok") =
          ({ initState with messages := initState.messages ++
              [{ role := Role.user, content := "museums" }] },
           { searched := none, request := none })) :=
  ⟨by decide,
   missing_key_blocks_intake_and_search initState "Kyoto" "Nara" 0 4 none
     (some "ok") "museums" (SearchOutcome.ok []) (by decide)⟩

/-- Counterexample to C5 as stated: an intake input with a 100-day duration
fails, but with the credential missing the failure is the `missingKey`
(CredentialMissing) outcome, not a ValidationError — the key guard fires
before the duration guard.  The state is still unchanged. -/
theorem overlong_trip_missing_key_not_validation_cex :
    (100 : Int) - 0 > 60
    ∧ (intakeSubmit initState "Oslo" "Bergen" 0 100 none (some "x")).1 =
        IntakeOutcome.missingKey
    ∧ isValidationError IntakeOutcome.missingKey = false
    ∧ (intakeSubmit initState "Oslo" "Bergen" 0 100 none (some "x")).2 =
        initState := by
  decide

/-- C5 (amended): for every intake input with duration exceeding 60 days,
the submission never starts the session and leaves the session state
unchanged (no message appended, `trip_started` untouched, trip context not
set); whenever the completion credential is present, the failure outcome is
one of the spec's ValidationError cases. -/
theorem overlong_trip_rejected_state_unchanged
    (st : SessionState) (src dst : String) (sd ed : Int)
    (key : Option String) (apiResult : Option String)
    (hdur : ed - sd > 60) :
    (intakeSubmit st src dst sd ed key apiResult).2 = st
    ∧ (intakeSubmit st src dst sd ed key apiResult).1 ≠ IntakeOutcome.started
    ∧ (truthyStr key = true →
        isValidationError (intakeSubmit st src dst sd ed key apiResult).1 =
          true) := by
  by_cases h1 : src = "" ∨ dst = ""
  · exact ⟨by simp [intakeSubmit, h1], by simp [intakeSubmit, h1],
      fun _ => by simp [intakeSubmit, h1, isValidationError]⟩
  · cases hk : truthyStr key with
    | false =>
      exact ⟨by simp [intakeSubmit, h1, hk], by simp [intakeSubmit, h1, hk],
        fun hcon => by simp [hk] at hcon⟩
    | true =>
      exact ⟨by simp [intakeSubmit, h1, hk, hdur],
        by simp [intakeSubmit, h1, hk, hdur],
        fun _ => by simp [intakeSubmit, h1, hk, hdur, isValidationError]⟩

/-- Witness for C5 (amended) at the spec's own 92-day example. -/
theorem overlong_trip_rejected_state_unchanged_witness :
    (92 : Int) - 0 > 60
    ∧ ((intakeSubmit initState "New York" "Tokyo" 0 92 (some "k")
          (some "ok")).2 = initState
      ∧ (intakeSubmit initState "New York" "Tokyo" 0 92 (some "k")
          (some "ok")).1 ≠ IntakeOutcome.started
      ∧ (truthyStr (some "k") = true →
          isValidationError (intakeSubmit initState "New York" "Tokyo" 0 92
            (some "k") (some "ok")).1 = true)) :=
  ⟨by decide,
   overlong_trip_rejected_state_unchanged initState "New York" "Tokyo" 0 92
     (some "k") (some "ok") (by decide)⟩

/-- C6: in every chat turn whose completion call yields no reply, the
persisted history is exactly the old history with the user's message
appended — so the user's message is the last entry and no assistant message
was appended — and whenever a request was issued at all, it was built from
the history that already contains the user's message (the append happens
before any downstream call). -/
theorem user_message_persisted_on_failure
    (st : SessionState) (prompt : String) (key : Option String)
    (so : SearchOutcome) :
    (chatTurn st prompt key so none).1.messages =
      st.messages ++ [{ role := Role.user, content := prompt }]
    ∧ (truthyStr key = true →
        (chatTurn st prompt key so none).2.request =
          some (buildRequest
            (st.messages ++ [{ role := Role.user, content := prompt }])
            (search_web so))) := by
  cases hk : truthyStr key with
  | false => simp [chatTurn, hk]
  | true => simp [chatTurn, hk, get_groq_response]

/-- Witness for C6 at a concrete failing turn with the credential present. -/
theorem user_message_persisted_on_failure_witness :
    ((chatTurn initState "hello" (some "k") (SearchOutcome.ok [])
        none).1.messages =
      initState.messages ++ [{ role := Role.user, content := "hello" }])
    ∧ (chatTurn initState "hello" (some "k") (SearchOutcome.ok [])
        none).2.request =
        some (buildRequest
          (initState.messages ++ [{ role := Role.user, content := "hello" }])
          (search_web (SearchOutcome.ok []))) :=
  ⟨(user_message_persisted_on_failure initState "hello" (some "k")
      (SearchOutcome.ok [])).1,
   (user_message_persisted_on_failure initState "hello" (some "k")
      (SearchOutcome.ok [])).2 (by decide)⟩

/-- C7: a provider exception inside `search_web` is swallowed and surfaces
as `none`, exactly the empty-results outcome, and an entire chat turn
behaves identically — same state, same effects — under a search failure and
under an empty search result: no search failure propagates past the search
boundary. -/
theorem search_failure_swallowed (e : String) :
    search_web (SearchOutcome.err e) = none
    ∧ search_web (SearchOutcome.err e) = search_web (SearchOutcome.ok [])
    ∧ ∀ (st : SessionState) (prompt : String) (key apiResult : Option String),
        chatTurn st prompt key (SearchOutcome.err e) apiResult =
          chatTurn st prompt key (SearchOutcome.ok []) apiResult := by
  refine ⟨rfl, rfl, ?_⟩
  intro st prompt key apiResult
  rfl

/-- C8: building the outbound payload with an absent web context, with an
empty-string context, or with the context produced by an empty search-result
set, returns the input message sequence unchanged. -/
theorem empty_augmentation_identity (messages : List Message) :
    buildPayload messages none = messages
    ∧ buildPayload messages (some "") = messages
    ∧ buildPayload messages (search_web (SearchOutcome.ok [])) = messages := by
  refine ⟨rfl, by simp [buildPayload], rfl⟩

/-- C9: every request actually issued by `get_groq_response` is exactly the
fixed system-instruction message prepended to the (possibly augmented)
supplied history, and the no-system-role invariant on the persisted message
sequence holds initially and is preserved by the intake handler, the chat
turn handler, and reset — so the system message is never stored in
persisted state. -/
theorem system_prompt_prepended_never_persisted :
    (∀ (messages : List Message) (key web_context apiResult : Option String)
        (req : List Message),
        (get_groq_response messages key web_context apiResult).2 = some req →
        req = systemMessage :: buildPayload messages web_context)
    ∧ (∀ (st : SessionState) (src dst : String) (sd ed : Int)
        (key apiResult : Option String),
        NoSystem st.messages →
        NoSystem (intakeSubmit st src dst sd ed key apiResult).2.messages)
    ∧ (∀ (st : SessionState) (prompt : String) (key : Option String)
        (so : SearchOutcome) (apiResult : Option String),
        NoSystem st.messages →
        NoSystem (chatTurn st prompt key so apiResult).1.messages)
    ∧ (∀ st : SessionState, NoSystem (resetPlanner st).messages)
    ∧ NoSystem initState.messages := by
  refine ⟨?_, ?_, ?_, ?_, ?_⟩
  · intro messages key web_context apiResult req h
    cases hk : truthyStr key with
    | false => simp [get_groq_response, hk] at h
    | true =>
      simp [get_groq_response, hk, buildRequest] at h
      exact h.symm
  · intro st src dst sd ed key apiResult h
    by_cases h1 : src = "" ∨ dst = ""
    · simpa [intakeSubmit, h1] using h
    · cases hk : truthyStr key with
      | false => simpa [intakeSubmit, h1, hk] using h
      | true =>
        by_cases h3 : ed - sd > 60
        · simpa [intakeSubmit, h1, hk, h3] using h
        · cases apiResult with
          | none =>
            simp only [intakeSubmit, h1, hk, h3, get_groq_response]
            simp
            exact NoSystem_append _ _ h (NoSystem_user _)
          | some r =>
            simp only [intakeSubmit, h1, hk, h3, get_groq_response]
            simp
            refine NoSystem_append _ _ h ?_
            intro m hm
            simp at hm
            rcases hm with hm | hm <;> subst hm <;> simp
  · intro st prompt key so apiResult h
    cases hk : truthyStr key with
    | false =>
      simp only [chatTurn, hk]
      simp
      exact NoSystem_append _ _ h (NoSystem_user _)
    | true =>
      cases apiResult with
      | none =>
        simp only [chatTurn, hk, get_groq_response]
        simp
        exact NoSystem_append _ _ h (NoSystem_user _)
      | some r =>
        simp only [chatTurn, hk, get_groq_response]
        simp
        refine NoSystem_append _ _ h ?_
        intro m hm
        simp at hm
        rcases hm with hm | hm <;> subst hm <;> simp
  · intro st
    intro m hm
    simp [resetPlanner] at hm
  · intro m hm
    simp [initState] at hm

/-- Witness for C9 at a concrete issued request and concrete intake and
chat turns starting from the initial state. -/
theorem system_prompt_prepended_never_persisted_witness :
    ((get_groq_response [] (some "k") none none).2 = some [systemMessage]
      ∧ ([systemMessage] : List Message) =
          systemMessage :: buildPayload ([] : List Message) none)
    ∧ (NoSystem initState.messages
      ∧ NoSystem (intakeSubmit initState "Rio" "Natal" 0 2 (some "k")
          none).2.messages)
    ∧ (NoSystem initState.messages
      ∧ NoSystem (chatTurn initState "food" (some "k") (SearchOutcome.ok [])
          none).1.messages) :=
  ⟨⟨rfl, system_prompt_prepended_never_persisted.1 [] (some "k") none none
      [systemMessage] rfl⟩,
   ⟨by decide, system_prompt_prepended_never_persisted.2.1 initState "Rio"
      "Natal" 0 2 (some "k") none (by decide)⟩,
   ⟨by decide, system_prompt_prepended_never_persisted.2.2.1 initState "food"
      (some "k") (SearchOutcome.ok []) none (by decide)⟩⟩

/-- C10: calling the completion helper with an empty message history and a
web context skips the injection — the guard requires a non-empty copied
history — so the payload is empty and the outbound request is the system
message alone; the (total) function never accesses a last element. -/
theorem empty_history_injection_skipped
    (ctx : String) (key apiResult : Option String)
    (hk : truthyStr key = true) :
    buildPayload [] (some ctx) = []
    ∧ get_groq_response [] key (some ctx) apiResult =
        (apiResult, some [systemMessage]) := by
  constructor
  · simp [buildPayload]
  · simp [get_groq_response, hk, buildRequest, buildPayload]

/-- Witness for C10 at a concrete non-empty context with the credential
present. -/
theorem empty_history_injection_skipped_witness :
    truthyStr (some "k") = true
    ∧ (buildPayload [] (some "news") = []
      ∧ get_groq_response [] (some "k") (some "news") (some "ok") =
          (some "ok", some [systemMessage])) :=
  ⟨by decide,
   empty_history_injection_skipped "news" (some "k") (some "ok") (by decide)⟩
